import Mathlib

/-!
Verification development for `cve2csv.py`, a command-line tool that fetches a
CVE search-results page, parses its HTML, extracts the results table and writes
it to CSV.  The Python functions are shallowly embedded as executable Lean
definitions over a simple HTML node tree; the theorems below settle the spec's
claims about them.
-/

set_option maxHeartbeats 1000000

/-- A parsed HTML node, as seen by the BeautifulSoup traversals in
`cve2csv.py`.  Only the pieces of the document model that the script consults
are represented: the tag name, the `id` attribute (the one attribute the code
looks up) and the child list.  Text content is a `text` leaf. -/
inductive Node where
  | text (s : String)
  | elem (tag : String) (idAttr : Option String) (children : List Node)

/-- Holds for element (Tag) nodes; BeautifulSoup `find*` calls without a
`string` filter only ever match Tags, never `NavigableString`s. -/
def Node.isElem : Node → Bool
  | .text _ => false
  | .elem _ _ _ => true

/-- Tag-name test (`find('table')`, `find_all('tr')`, ...). -/
def isTag (name : String) (n : Node) : Bool :=
  match n with
  | .elem t _ _ => t == name
  | .text _ => false

/-- Test for header/data cells, as in `row.find_all(['th', 'td'])`. -/
def isThTd (n : Node) : Bool :=
  isTag "th" n || isTag "td" n

/-- The `id` attribute of a node, if any. -/
def Node.idAttrOf : Node → Option String
  | .text _ => none
  | .elem _ i _ => i

/-- Test for `find(id='...')`. -/
def hasId (v : String) (n : Node) : Bool :=
  n.idAttrOf == some v

/-- Child list of a node (empty for text leaves). -/
def Node.childrenOf : Node → List Node
  | .text _ => []
  | .elem _ _ cs => cs

mutual
/-- Concatenated text of a node, as BeautifulSoup `Tag.text` /
`get_text()`: all descendant strings in document order. -/
def textOf : Node → String
  | .text s => s
  | .elem _ _ cs => textOfList cs

/-- Concatenated text of a list of nodes in order. -/
def textOfList : List Node → String
  | [] => ""
  | n :: rest => textOf n ++ textOfList rest
end

mutual
/-- Preorder (document-order) listing of a node together with all of its
descendants, the order in which BeautifulSoup `find` / `find_all` visit. -/
def subnodes : Node → List Node
  | .text s => [.text s]
  | .elem t i cs => .elem t i cs :: subnodesList cs

/-- Preorder listing of a forest: each root followed by its descendants. -/
def subnodesList : List Node → List Node
  | [] => []
  | n :: rest => subnodes n ++ subnodesList rest
end

/-- Models `tag.find(pred)` within `tag`: first matching descendant in document
order (the tag itself is not a candidate). -/
def findIn (p : Node → Bool) (n : Node) : Option Node :=
  (subnodesList n.childrenOf).find? p

/-- Models `soup.find(pred)` over the whole document. -/
def findDoc (p : Node → Bool) (soup : List Node) : Option Node :=
  (subnodesList soup).find? p

/-- Models `tag.find_all(pred)`: every matching descendant in document order. -/
def findAllIn (p : Node → Bool) (n : Node) : List Node :=
  (subnodesList n.childrenOf).filter p

/-- BeautifulSoup `Tag.string`: the single string child, recursing through a
single-child chain; `None` when the node has zero or several children. -/
def tagString : Node → Option String
  | .text s => some s
  | .elem _ _ [c] => tagString c
  | .elem _ _ _ => none

/-- Matcher for `soup.find('h2', string='Search Results')` (line 114):
an `h2` element whose `.string` is exactly `Search Results`. -/
def isH2SearchResults (n : Node) : Bool :=
  match n with
  | .elem "h2" _ _ => tagString n == some "Search Results"
  | _ => false

mutual
/-- Locate the first `h2` matching `isH2SearchResults` in document order and
return the list of its following siblings (the context `find_next_sibling`
then searches).  `none` when no such heading exists. -/
def findH2Rest : List Node → Option (List Node)
  | [] => none
  | n :: rest =>
    if isH2SearchResults n then some rest
    else
      match findH2Node n with
      | some r => some r
      | none => findH2Rest rest

/-- Search strictly inside one node for the heading. -/
def findH2Node : Node → Option (List Node)
  | .text _ => none
  | .elem _ _ cs => findH2Rest cs
end

/-- Python `str.strip()` on the Python whitespace set, restricted to the
ASCII whitespace characters that can occur here. -/
def pyStrip (s : String) : String :=
  String.mk ((((s.data.dropWhile Char.isWhitespace).reverse.dropWhile
      Char.isWhitespace).reverse))

/-- Value of a nonempty all-digit run. -/
def digitsVal : List Char → Option Int
  | [] => none
  | cs =>
    if cs.all Char.isDigit then
      some (cs.foldl (fun acc c => acc * 10 + (c.toNat - 48)) (0 : Int))
    else none

/-- Python `int(str)`: strip surrounding whitespace, optional sign, then a
nonempty digit run.  (Python additionally accepts underscore digit
separators and non-ASCII digits; no behaviour verified here depends on
those, and the page's counts are plain ASCII digit runs.) -/
def parsePyInt (s : String) : Option Int :=
  match (pyStrip s).data with
  | '+' :: rest => digitsVal rest
  | '-' :: rest => (digitsVal rest).map (fun n => -n)
  | rest => digitsVal rest

/-- A Python exception, as far as the embedded code can raise one. -/
inductive PyErr where
  | indexError
  | valueError
deriving Repr, DecidableEq

instance {ε α : Type} [DecidableEq ε] [DecidableEq α] : DecidableEq (Except ε α) :=
  fun a b =>
    match a, b with
    | .ok x, .ok y =>
      if h : x = y then isTrue (by rw [h]) else isFalse (fun he => h (Except.ok.inj he))
    | .error x, .error y =>
      if h : x = y then isTrue (by rw [h]) else isFalse (fun he => h (Except.error.inj he))
    | .ok _, .error _ => isFalse (fun he => Except.noConfusion he)
    | .error _, .ok _ => isFalse (fun he => Except.noConfusion he)

/-- The chained walrus condition of `get_results_number` (lines 114-116),
split into its find steps: the heading, then `h2.find_next_sibling()` (the
first following sibling that is a Tag), then `div.find('b')`.  Returns the
located `b` tag, or `none` as soon as a step fails.  (A found bs4 Tag is
truthy, so each conjunct reduces to the find succeeding.) -/
def boldOf (soup : List Node) : Option Node :=
  match findH2Rest soup with
  | none => none
  | some rest =>
    match rest.find? Node.isElem with
    | none => none
    | some div => findIn (isTag "b") div

/-- Embeds `get_results_number` (lines 92-116): `int(b.text)` when heading, sibling
and bold element are all found, else `0`.  `int` raises `ValueError` when the
bold text is not a valid integer literal. -/
def get_results_number (soup : List Node) : Except PyErr Int :=
  match boldOf soup with
  | none => .ok 0
  | some b =>
    match parsePyInt (textOf b) with
    | some n => .ok n
    | none => .error .valueError

example : pyStrip "  a b\n" = "a b" := by decide
example : parsePyInt " 42 " = some 42 := by decide
example : parsePyInt "abc" = none := by decide
example : parsePyInt "-7" = some (-7) := by decide
example :
    get_results_number
      [.elem "h2" none [.text "Search Results"],
       .elem "div" none [.elem "b" none [.text "42"]]] = .ok 42 := by decide

/-- Severity of a log record. -/
inductive LogLevel where
  | info
  | warning
  | error
deriving Repr, DecidableEq

/-- The fixed log records the embedded functions can emit; each constructor
stands for one literal message of `cve2csv.py`. -/
inductive LogMsg where
  /-- line 156: `No table found with id TableWithRules.` -/
  | warnNoTable
  /-- line 147: `No valid data found in table.` -/
  | warnNoValidData
  /-- line 151: `Mismatch between header and row columns.` -/
  | errMismatch
  /-- line 165: `Data saved to ... with delimiter ... and encoding ...` -/
  | infoSaved
deriving Repr, DecidableEq

/-- Severity of each message, as logged by the script. -/
def LogMsg.level : LogMsg → LogLevel
  | .warnNoTable => .warning
  | .warnNoValidData => .warning
  | .errMismatch => .error
  | .infoSaved => .info

/-- Python list indexing `l[i]` for a non-negative index: `IndexError` when
out of range. -/
def pyIndex {α : Type} (l : List α) (i : Nat) : Except PyErr α :=
  match l[i]? with
  | some a => .ok a
  | none => .error .indexError

/-- The pandas `DataFrame` produced at line 154, reduced to what the script
puts in and takes out: column labels and the data grid.  A cell is `none`
when pandas padded a short row with `NaN`. -/
structure Frame where
  columns : List String
  data : List (List (Option String))
deriving Repr, DecidableEq

/-- Pad one row to `n` cells, missing cells becoming `NaN` (`none`). -/
def padRow (n : Nat) (r : List String) : List (Option String) :=
  r.map some ++ List.replicate (n - r.length) none

/-- Widest row of a ragged grid. -/
def maxWidth (data : List (List String)) : Nat :=
  data.foldr (fun r acc => max r.length acc) 0

/-- Models `pd.DataFrame(data, columns=cols)` on a list of row lists: pandas pads
ragged rows with `NaN` up to the widest row, then requires that width to
equal the number of column labels, raising `ValueError` otherwise. -/
def mkDataFrame (data : List (List String)) (cols : List String) :
    Except PyErr Frame :=
  if data.isEmpty || maxWidth data == cols.length then
    .ok ⟨cols, data.map (padRow cols.length)⟩
  else .error .valueError

/-- Models `soup.find(id='TableWithRules')` (line 141). -/
def containerOf (soup : List Node) : Option Node :=
  findDoc (hasId "TableWithRules") soup

/-- The walrus condition of line 141,
`(div := soup.find(id='TableWithRules')) and (table := div.find('table'))`:
a found bs4 Tag is truthy, so the condition holds exactly when both finds
succeed, and `tableOf` is the located table. -/
def tableOf (soup : List Node) : Option Node :=
  match containerOf soup with
  | none => none
  | some div => findIn (isTag "table") div

/-- Models `table.find_all('tr')` (line 144). -/
def trsOf (table : Node) : List Node :=
  findAllIn (isTag "tr") table

/-- Models `row.find_all(['th', 'td'])` (line 143). -/
def cellsOf (row : Node) : List Node :=
  findAllIn isThTd row

/-- One grid row: `[ele.text.strip() for ele in row.find_all(['th', 'td'])]`
(line 143). -/
def cellTexts (row : Node) : List String :=
  (cellsOf row).map (fun e => pyStrip (textOf e))

/-- The `rows` list comprehension of lines 143-144. -/
def rowsGrid (table : Node) : List (List String) :=
  (trsOf table).map cellTexts

/-- The grid the extractor works on, when the container and table are both
found. -/
def rowsOf (soup : List Node) : Option (List (List String)) :=
  (tableOf soup).map rowsGrid

/-- Embeds `extract_table_data` (lines 119-157).  The result carries the log
records emitted on the taken path next to the returned value (`none` is
Python's `None`); a `.error` is an uncaught exception escaping the
function (`rows[...]` would raise `IndexError`, `pd.DataFrame`
`ValueError`). -/
def extract_table_data (soup : List Node) :
    Except PyErr (List LogMsg × Option Frame) :=
  match tableOf soup with
  | none => .ok ([.warnNoTable], none)
  | some table =>
    let rows := rowsGrid table
    if rows.isEmpty || rows.length < 2 then
      .ok ([.warnNoValidData], none)
    else
      match pyIndex rows 0 with
      | .error e => .error e
      | .ok r0 =>
        match pyIndex (rows.drop 1) 0 with
        | .error e => .error e
        | .ok r1 =>
          if r0.length != r1.length then
            .ok ([.errMismatch], none)
          else
            match mkDataFrame (rows.drop 1) r0 with
            | .error e => .error e
            | .ok f => .ok ([], some f)

/-- Holds exactly when the computation escaped with an `IndexError`. -/
def isIndexError {α : Type} : Except PyErr α → Bool
  | .error .indexError => true
  | _ => false

/-- A `NaN` cell serializes as the empty field (pandas `to_csv` default). -/
def cellStr : Option String → String
  | some s => s
  | none => ""

/-- The csv writer quotes a field that contains the delimiter, a quote
character or a line break (`QUOTE_MINIMAL`). -/
def needsQuote (delim : Char) (s : String) : Bool :=
  s.data.any (fun c => c == delim || c == '"' || c == '\n' || c == '\r')

/-- Double every quote character in a field body. -/
def escapeQuotes (cs : List Char) : List Char :=
  cs.foldr (fun c acc => if c == '"' then '"' :: '"' :: acc else c :: acc) []

/-- One csv field, quoted when needed. -/
def quoteCell (delim : Char) (s : String) : String :=
  if needsQuote delim s then
    String.mk ('"' :: escapeQuotes s.data ++ ['"'])
  else s

/-- One line of csv output: the fields joined by the delimiter.  The csv
backend requires a single-character delimiter, so `delim` is a `Char`. -/
def csvLine (delim : Char) (cells : List String) : String :=
  String.intercalate (String.singleton delim) (cells.map (quoteCell delim))

/-- Models `df.to_csv(..., index=index, sep=delim)` as the list of output lines:
the header line, then one line per data row; with `index` set, a leading
row-label column (empty header cell, positional label per row). -/
def to_csv (f : Frame) (index : Bool) (delim : Char) : List String :=
  csvLine delim ((if index then [""] else []) ++ f.columns) ::
    (f.data.enum.map (fun p =>
      csvLine delim ((if index then [toString p.1] else []) ++ p.2.map cellStr)))

/-- The file `save_to_csv` leaves behind: where it was written, the text
encoding handed to pandas, and the lines of delimited text. -/
structure CsvFile where
  path : String
  encoding : String
  lines : List String
deriving Repr, DecidableEq

/-- Embeds `save_to_csv` (lines 160-166): `df.to_csv(output_file, index=False,
sep=delimiter, encoding=encoding)` plus the info log record. -/
def save_to_csv (df : Frame) (output_file : String) (delimiter : Char)
    (encoding : String) : CsvFile × LogMsg :=
  (⟨output_file, encoding, to_csv df false delimiter⟩, .infoSaved)

/-- The fixed search endpoint (line 45). -/
def URL : String := "https://cve.mitre.org/cgi-bin/cvekey.cgi?keyword="

/-- What the network returned for the single GET: either a response with a
status code and body text, or a raised `requests.RequestException`
(DNS failure, timeout, connection error, ...). -/
inductive HttpResult where
  | response (status : Nat) (body : String)
  | exn
deriving Repr, DecidableEq

/-- How `fetch_cve_data` ends: with the response body, or with
`sys.exit(1)`. -/
inductive FetchOutcome where
  | text (s : String)
  | exit1
deriving Repr, DecidableEq

/-- Models `response.raise_for_status()`: it raises `HTTPError` exactly for status
codes in 400..599 (requests `models.py`); the 4xx/5xx `HTTPError` is a
`RequestException`, so it is caught by the handler at line 87. -/
def raisesForStatus (status : Nat) : Bool :=
  400 ≤ status && status < 600

/-- Embeds `fetch_cve_data` (lines 49-89) over the abstract network result: a
raised `RequestException` or an error status logs and exits with code 1;
otherwise the body text is returned.  No retry and no partial result exist
by construction. -/
def fetch_cve_data : HttpResult → FetchOutcome
  | .exn => .exit1
  | .response status body =>
    if raisesForStatus status then .exit1 else .text body

/-- The hex digit characters used in a percent escape. -/
def hexDigits : List Char := "0123456789ABCDEF".data

/-- Upper-case hex digit of `n mod 16`. -/
def byteHexDigit (n : Nat) : Char :=
  hexDigits.getD (n % 16) '0'

/-- UTF-8 bytes of a code point, as `urllib.parse.quote` encodes them. -/
def utf8Bytes (n : Nat) : List Nat :=
  if n < 0x80 then [n]
  else if n < 0x800 then [0xC0 + n / 64, 0x80 + n % 64]
  else if n < 0x10000 then
    [0xE0 + n / 4096, 0x80 + (n / 64) % 64, 0x80 + n % 64]
  else
    [0xF0 + n / 262144, 0x80 + (n / 4096) % 64, 0x80 + (n / 64) % 64,
     0x80 + n % 64]

/-- The characters `requests.utils.requote_uri` leaves unescaped: the
`quote` always-safe set (ASCII alphanumerics and `_.-~`) plus its
`safe_with_percent` parameter `!#$%&'()*+,/:;=?@[]~` (the apostrophe is
appended as code point 39).  A space is not among them. -/
def safeChars : List Char :=
  "_.-~!#$%&()*+,/:;=?@[]".data ++ [Char.ofNat 39]

/-- Holds when `requote_uri` passes the character through unescaped. -/
def safeChar (c : Char) : Bool :=
  c.isAlphanum || safeChars.contains c

/-- Percent-encoding of one character: itself when safe, else `%XX` per
UTF-8 byte (so `' '` becomes `%20`). -/
def quoteChar (c : Char) : List Char :=
  if safeChar c then [c]
  else ((utf8Bytes c.toNat).map
    (fun b => ['%', byteHexDigit (b / 16), byteHexDigit (b % 16)])).flatten

/-- Character-wise quoting of a whole string. -/
def quoteList : List Char → List Char
  | [] => []
  | c :: rest => quoteChar c ++ quoteList rest

/-- Models `requests.utils.requote_uri`, the URL preparation requests applies to
`URL + keyword` before the GET goes on the wire (`PreparedRequest
.prepare_url`): every character outside the safe set is percent-encoded.
(The preliminary `unquote_unreserved` pass, which only rewrites existing
`%XX` escapes of unreserved characters, is not modelled; no claim involves
a keyword that already contains percent escapes.) -/
def requote_uri (s : String) : String :=
  String.mk (quoteList s.data)

/-- Holds when the string still contains a literal space. -/
def hasSpace (s : String) : Bool :=
  s.data.any (fun c => c == ' ')

/-- How one whole run of `main` (lines 193-207) ends. -/
inductive Outcome where
  /-- `sys.exit(1)` out of `fetch_cve_data`. -/
  | exitNetwork
  /-- an uncaught exception escaped `main`. -/
  | raised (e : PyErr)
  /-- `n_results = 0`: informational log, clean exit, no file. -/
  | noRecords
  /-- positive count but `extract_table_data` returned `None`: warning,
  clean exit, no file. -/
  | noValidData
  /-- the csv file was written. -/
  | wrote (file : CsvFile)
deriving Repr, DecidableEq

/-- Process exit status of an outcome (an uncaught Python exception
terminates the interpreter with status 1). -/
def exitCode : Outcome → Nat
  | .exitNetwork => 1
  | .raised _ => 1
  | _ => 0

/-- Whether an outcome wrote an output file. -/
def producesFile : Outcome → Bool
  | .wrote _ => true
  | _ => false

/-- Embeds `main` (lines 193-207) over an abstract network result and an HTML
parser `parse` standing for `BeautifulSoup(..., 'html.parser')`: fetch,
parse, count; extract only when the count is positive; write only when
extraction produced a `DataFrame`. -/
def mainRun (r : HttpResult) (parse : String → List Node) (output : String)
    (delimiter : Char) (encoding : String) : Outcome :=
  match fetch_cve_data r with
  | .exit1 => .exitNetwork
  | .text body =>
    let soup := parse body
    match get_results_number soup with
    | .error e => .raised e
    | .ok n =>
      if 0 < n then
        match extract_table_data soup with
        | .error e => .raised e
        | .ok (_, some df) => .wrote (save_to_csv df output delimiter encoding).1
        | .ok (_, none) => .noValidData
      else .noRecords

/-- A one-cell `<td>`. -/
def tdCell (s : String) : Node := .elem "td" none [.text s]

/-- A `<tr>` of `<td>` cells. -/
def trRow (cells : List String) : Node := .elem "tr" none (cells.map tdCell)

/-- A results page fragment: the `TableWithRules` container holding a table
with the given rows. -/
def tableSoup (rows : List (List String)) : List Node :=
  [.elem "div" (some "TableWithRules") [.elem "table" none (rows.map trRow)]]

example : rowsOf (tableSoup [["a", "b"], ["c"]]) = some [["a", "b"], ["c"]] := by
  decide

/-- When the container or its table is missing (or empty), the line 156
branch is taken. -/
theorem extract_table_data_no_table (soup : List Node)
    (h : tableOf soup = none) :
    extract_table_data soup = .ok ([.warnNoTable], none) := by
  unfold extract_table_data
  rw [h]

/-- When the table is found, the extractor is determined by the rows grid:
the guard at line 146 makes both list accesses at line 150 succeed, leaving
these outcomes. -/
theorem extract_table_data_some (soup : List Node) (table : Node)
    (h : tableOf soup = some table) :
    extract_table_data soup =
      (match rowsGrid table with
       | [] => .ok ([.warnNoValidData], none)
       | [_] => .ok ([.warnNoValidData], none)
       | r0 :: r1 :: rest =>
         if r0.length != r1.length then .ok ([.errMismatch], none)
         else
           match mkDataFrame (r1 :: rest) r0 with
           | .error e => .error e
           | .ok f => .ok ([], some f)) := by
  unfold extract_table_data
  rw [h]
  show (if (rowsGrid table).isEmpty || (rowsGrid table).length < 2 then
          Except.ok ([LogMsg.warnNoValidData], none)
        else
          match pyIndex (rowsGrid table) 0 with
          | .error e => .error e
          | .ok r0 =>
            match pyIndex ((rowsGrid table).drop 1) 0 with
            | .error e => .error e
            | .ok r1 =>
              if r0.length != r1.length then .ok ([.errMismatch], none)
              else
                match mkDataFrame ((rowsGrid table).drop 1) r0 with
                | .error e => .error e
                | .ok f => .ok ([], some f)) = _
  generalize rowsGrid table = rows
  rcases rows with _ | ⟨r0, _ | ⟨r1, rest⟩⟩
  · rfl
  · rfl
  · have hcond :
        ((r0 :: r1 :: rest).isEmpty
          || decide ((r0 :: r1 :: rest).length < 2)) = false := by
      simp
    simp only [hcond, Bool.false_eq_true, if_false, pyIndex,
      List.getElem?_cons_zero, List.drop_succ_cons, List.drop_zero]


/-- The `DataFrame` constructor can only raise `ValueError`, never
`IndexError`. -/
theorem mkDataFrame_not_indexError (data : List (List String))
    (cols : List String) : isIndexError (mkDataFrame data cols) = false := by
  unfold mkDataFrame
  split <;> rfl

/-- Length of a padded row. -/
theorem padRow_length (n : Nat) (r : List String) :
    (padRow n r).length = r.length + (n - r.length) := by
  simp [padRow]

/-- Specialization of `extract_table_data_some`: a grid of fewer than two
rows takes the line 147 warning branch. -/
theorem extract_table_data_short (soup : List Node) (table : Node)
    (h : tableOf soup = some table)
    (hr : rowsGrid table = [] ∨ ∃ r, rowsGrid table = [r]) :
    extract_table_data soup = .ok ([.warnNoValidData], none) := by
  rw [extract_table_data_some soup table h]
  rcases hr with hr | ⟨r, hr⟩ <;> rw [hr]

/-- Specialization of `extract_table_data_some`: with a header row and at
least one data row, the extractor is the line 150 comparison followed by
the `DataFrame` construction. -/
theorem extract_table_data_cons (soup : List Node) (table : Node)
    (r0 r1 : List String) (rest : List (List String))
    (h : tableOf soup = some table)
    (hr : rowsGrid table = r0 :: r1 :: rest) :
    extract_table_data soup =
      if r0.length != r1.length then
        Except.ok ([LogMsg.errMismatch], none)
      else
        match mkDataFrame (r1 :: rest) r0 with
        | .error e => .error e
        | .ok f => .ok ([], some f) := by
  rw [extract_table_data_some soup table h, hr]

/-- C9: in `extract_table_data`, the accesses `rows[1:][0]` and `rows[0]`
at line 150 sit behind the `len(rows) < 2` guard of line 146, so no input
HTML can make them raise `IndexError`. -/
theorem extract_table_data_no_index_error (soup : List Node) :
    isIndexError (extract_table_data soup) = false := by
  cases h : tableOf soup with
  | none => rw [extract_table_data_no_table soup h]; rfl
  | some table =>
    rcases hr : rowsGrid table with _ | ⟨r0, _ | ⟨r1, rest⟩⟩
    · rw [extract_table_data_short soup table h (Or.inl hr)]; rfl
    · rw [extract_table_data_short soup table h (Or.inr ⟨_, hr⟩)]; rfl
    · rw [extract_table_data_cons soup table r0 r1 rest h hr]
      split
      · rfl
      · cases hm : mkDataFrame (r1 :: rest) r0 with
        | error e =>
          have hni := mkDataFrame_not_indexError (r1 :: rest) r0
          rw [hm] at hni
          cases e
          · simp [isIndexError] at hni
          · simp [isIndexError]
        | ok f => rfl

/-- C10: whenever `extract_table_data` returns a `DataFrame`, it has at
least one data row, its column labels are the stripped cell texts of the
table's first `tr`, and its first data row has as many cells as the
header. -/
theorem extract_table_data_some_invariants (soup : List Node) (f : Frame)
    (logs : List LogMsg)
    (h : extract_table_data soup = .ok (logs, some f)) :
    ∃ table, tableOf soup = some table ∧
      ∃ tr0 trRest, trsOf table = tr0 :: trRest ∧
        f.columns = (cellsOf tr0).map (fun e => pyStrip (textOf e)) ∧
        f.data ≠ [] ∧
        f.data.headI.length = f.columns.length := by
  cases htab : tableOf soup with
  | none =>
    rw [extract_table_data_no_table soup htab] at h
    simp at h
  | some table =>
    rcases hr : rowsGrid table with _ | ⟨r0, _ | ⟨r1, rest⟩⟩
    · rw [extract_table_data_short soup table htab (Or.inl hr)] at h
      simp at h
    · rw [extract_table_data_short soup table htab (Or.inr ⟨_, hr⟩)] at h
      simp at h
    · rw [extract_table_data_cons soup table r0 r1 rest htab hr] at h
      refine ⟨table, rfl, ?_⟩
      split at h
      · simp at h
      · rename_i hlen
        have hlen' : r0.length = r1.length := by
          simpa using hlen
        cases hm : mkDataFrame (r1 :: rest) r0 with
        | error e => rw [hm] at h; simp at h
        | ok f' =>
          rw [hm] at h
          simp only [Except.ok.injEq, Prod.mk.injEq, Option.some.injEq] at h
          have hf : f = f' := h.2.symm
          unfold mkDataFrame at hm
          split at hm
          · have hfr : f' = ⟨r0, (r1 :: rest).map (padRow r0.length)⟩ := by
              simpa using hm.symm
            obtain ⟨tr0, trRest, htr, hcell, -⟩ :=
              List.map_eq_cons_iff.mp hr
            refine ⟨tr0, trRest, htr, ?_, ?_, ?_⟩
            · rw [hf, hfr, ← hcell]; rfl
            · rw [hf, hfr]; simp
            · rw [hf, hfr]
              simp [padRow_length]
              omega
          · simp at hm

/-- Witness for C10, at a well-formed one-data-row table. -/
theorem extract_table_data_some_invariants_witness :
    ∃ table, tableOf (tableSoup [["H1", "H2"], ["v1", "v2"]]) = some table ∧
      ∃ tr0 trRest, trsOf table = tr0 :: trRest ∧
        (Frame.mk ["H1", "H2"] [[some "v1", some "v2"]]).columns
          = (cellsOf tr0).map (fun e => pyStrip (textOf e)) ∧
        (Frame.mk ["H1", "H2"] [[some "v1", some "v2"]]).data ≠ [] ∧
        (Frame.mk ["H1", "H2"]
            [[some "v1", some "v2"]]).data.headI.length
          = (Frame.mk ["H1", "H2"] [[some "v1", some "v2"]]).columns.length :=
  extract_table_data_some_invariants (tableSoup [["H1", "H2"], ["v1", "v2"]])
    ⟨["H1", "H2"], [[some "v1", some "v2"]]⟩ [] (by decide)

/-- C1 (amended): the extractor compares only the FIRST data row's cell
count with the header's; when they differ it logs the mismatch error and
returns `None`. -/
theorem first_row_mismatch_rejected (soup : List Node)
    (rs : List (List String)) (h1 : rowsOf soup = some rs)
    (h2 : 2 ≤ rs.length)
    (h3 : rs.headI.length ≠ ((rs.drop 1).headI).length) :
    extract_table_data soup = .ok ([.errMismatch], none) := by
  unfold rowsOf at h1
  cases htab : tableOf soup with
  | none => rw [htab] at h1; simp at h1
  | some table =>
    rw [htab] at h1
    simp at h1
    rcases rs with _ | ⟨r0, _ | ⟨r1, rest⟩⟩
    · simp at h2
    · simp at h2
    · simp only [List.headI, List.drop_succ_cons, List.drop_zero] at h3
      rw [extract_table_data_cons soup table r0 r1 rest htab h1]
      have hb : (r0.length != r1.length) = true := by
        simpa using h3
      rw [if_pos hb]

/-- Witness for the amended C1: a two-cell header over a single one-cell
data row is rejected with the mismatch error. -/
theorem first_row_mismatch_rejected_witness :
    extract_table_data (tableSoup [["a", "b"], ["c"]])
      = .ok ([.errMismatch], none) :=
  first_row_mismatch_rejected (tableSoup [["a", "b"], ["c"]])
    [["a", "b"], ["c"]] (by decide) (by decide) (by decide)

/-- Counterexample to C1 as stated: the third row `["e"]` has one cell
while the header has two, yet the table is NOT rejected — only the first
data row is ever compared with the header, and the short later row is
padded by the `DataFrame` constructor. -/
theorem later_row_mismatch_not_rejected :
    rowsOf (tableSoup [["a", "b"], ["c", "d"], ["e"]])
      = some [["a", "b"], ["c", "d"], ["e"]]
    ∧ (["e"] : List String).length ≠ (["a", "b"] : List String).length
    ∧ extract_table_data (tableSoup [["a", "b"], ["c", "d"], ["e"]])
        = .ok ([], some ⟨["a", "b"],
            [[some "c", some "d"], [some "e", none]]⟩) := by
  decide

/-- C5: when the `TableWithRules` container or its table is missing, or
the table has fewer than two rows, the extractor returns `None` with a
single warning-level log record, and no exception escapes (the result is
an `ok` value). -/
theorem extract_table_data_warns_on_missing (soup : List Node)
    (h : tableOf soup = none
      ∨ ∃ rs, rowsOf soup = some rs ∧ rs.length < 2) :
    ∃ w, extract_table_data soup = .ok ([w], none)
      ∧ w.level = .warning := by
  rcases h with h | ⟨rs, h1, h2⟩
  · exact ⟨.warnNoTable, extract_table_data_no_table soup h, rfl⟩
  · unfold rowsOf at h1
    cases htab : tableOf soup with
    | none => exact ⟨.warnNoTable, extract_table_data_no_table soup htab, rfl⟩
    | some table =>
      rw [htab] at h1
      simp at h1
      rcases rs with _ | ⟨r0, _ | ⟨r1, rest⟩⟩
      · exact ⟨.warnNoValidData,
          extract_table_data_short soup table htab (Or.inl h1), rfl⟩
      · exact ⟨.warnNoValidData,
          extract_table_data_short soup table htab (Or.inr ⟨_, h1⟩), rfl⟩
      · simp only [List.length_cons] at h2
        omega

/-- Witness for C5 at the empty document. -/
theorem extract_table_data_warns_on_missing_witness :
    ∃ w, extract_table_data ([] : List Node) = .ok ([w], none)
      ∧ w.level = .warning :=
  extract_table_data_warns_on_missing [] (Or.inl rfl)

/-- A results fragment whose bold element holds non-numeric text. -/
def badCountSoup : List Node :=
  [.elem "h2" none [.text "Search Results"],
   .elem "div" none [.elem "b" none [.text "abc"]]]

/-- Counterexample to C3 as stated: when the bold element's text is not a
valid integer, `int(b.text)` raises `ValueError` — `get_results_number`
does not return 0. -/
theorem bad_count_text_raises :
    parsePyInt "abc" = none
    ∧ get_results_number badCountSoup = .error .valueError := by
  decide

/-- C3 (amended): `get_results_number` returns 0 whenever the heading, its
next sibling or the bold element is missing; when the bold element is found
it returns its parsed text, but raises `ValueError` (instead of returning
0) when that text is not a valid integer. -/
theorem get_results_number_cases (soup : List Node) :
    (boldOf soup = none → get_results_number soup = .ok 0)
    ∧ (∀ b n, boldOf soup = some b → parsePyInt (textOf b) = some n →
        get_results_number soup = .ok n)
    ∧ (∀ b, boldOf soup = some b → parsePyInt (textOf b) = none →
        get_results_number soup = .error .valueError) := by
  refine ⟨fun h => ?_, fun b n hb hp => ?_, fun b hb hp => ?_⟩ <;>
    unfold get_results_number
  · rw [h]
  · rw [hb]
    show (match parsePyInt (textOf b) with
          | some n => Except.ok n
          | none => Except.error PyErr.valueError) = Except.ok n
    rw [hp]
  · rw [hb]
    show (match parsePyInt (textOf b) with
          | some n => Except.ok n
          | none => Except.error PyErr.valueError)
        = Except.error PyErr.valueError
    rw [hp]

/-- Witness for the amended C3: the empty document yields 0, and the
non-numeric bold text raises. -/
theorem get_results_number_cases_witness :
    get_results_number ([] : List Node) = .ok 0
    ∧ get_results_number badCountSoup = .error .valueError :=
  ⟨(get_results_number_cases []).1 rfl,
   (get_results_number_cases badCountSoup).2.2
     (.elem "b" none [.text "abc"]) rfl (by decide)⟩

/-- The spec's concrete example page: the heading, a whitespace text node
(skipped by `find_next_sibling`), then the sibling `div` holding the bold
count. -/
def countSoup : List Node :=
  [.elem "h2" none [.text "Search Results"],
   .text "\n",
   .elem "div" none
     [.text "There are ",
      .elem "b" none [.text "42"],
      .text " CVE Records that match your search."]]

/-- A page whose `h2` is not the `Search Results` heading. -/
def noHeadingSoup : List Node :=
  [.elem "h2" none [.text "Other"],
   .elem "div" none [.elem "b" none [.text "42"]]]

/-- C4: on the example page the count is 42; with no `Search Results`
heading the count is 0. -/
theorem get_results_number_example :
    get_results_number countSoup = .ok 42
    ∧ get_results_number noHeadingSoup = .ok 0 := by
  decide

/-- Counterexample to C7 as stated: a final status of 304 is not a 2xx,
yet `raise_for_status` raises only for 4xx/5xx, so `fetch_cve_data`
returns the body instead of exiting. -/
theorem fetch_304_returns_body :
    fetch_cve_data (.response 304 "body") = .text "body"
    ∧ ¬(200 ≤ 304 ∧ 304 < 300) := by
  decide

/-- C7 (amended): a raised `RequestException` (DNS failure, timeout, ...)
or a 4xx/5xx status logs an error and exits with code 1, with no retry; any
other status — in particular a successful 2xx — returns the response body
text. -/
theorem fetch_cve_data_cases :
    fetch_cve_data .exn = .exit1
    ∧ (∀ st body, 400 ≤ st → st < 600 →
        fetch_cve_data (.response st body) = .exit1)
    ∧ (∀ st body, st < 400 →
        fetch_cve_data (.response st body) = .text body) := by
  refine ⟨rfl, fun st body h4 h6 => ?_, fun st body h2 => ?_⟩ <;>
    simp only [fetch_cve_data, raisesForStatus]
  · have : (400 ≤ st && st < 600) = true := by
      simp only [Bool.and_eq_true, decide_eq_true_eq]
      omega
    simp [this]
  · have : (400 ≤ st && st < 600) = false := by
      simp only [Bool.and_eq_false_iff, decide_eq_false_iff_not]
      omega
    simp [this]

/-- Witness for the amended C7: a 500 exits, a 200 returns the body. -/
theorem fetch_cve_data_cases_witness :
    fetch_cve_data (.response 500 "oops") = .exit1
    ∧ fetch_cve_data (.response 200 "page") = .text "page" :=
  ⟨fetch_cve_data_cases.2.1 500 "oops" (by omega) (by omega),
   fetch_cve_data_cases.2.2 200 "page" (by omega)⟩

/-- Mapping only the second components of an enumeration forgets the
indices. -/
theorem enum_map_proj {α β : Type} (l : List α) (g : α → β) :
    l.enum.map (fun p => g p.2) = l.map g := by
  have h := congrArg (List.map g) (List.enum_map_snd l)
  rw [List.map_map] at h
  exact h

/-- C8: `save_to_csv` writes to the caller's path with the caller's
encoding; the first output line is the delimited header and each further
line is exactly the delimited cells of one data row — no row-index column
is inserted anywhere. -/
theorem save_to_csv_contract (f : Frame) (output : String) (delim : Char)
    (enc : String) :
    (save_to_csv f output delim enc).1.path = output
    ∧ (save_to_csv f output delim enc).1.encoding = enc
    ∧ (save_to_csv f output delim enc).1.lines
        = csvLine delim f.columns
            :: f.data.map (fun r => csvLine delim (r.map cellStr)) := by
  refine ⟨rfl, rfl, ?_⟩
  show to_csv f false delim = _
  unfold to_csv
  simp only [if_neg (by simp : ¬(false = true)), List.nil_append]
  rw [enum_map_proj f.data (fun r => csvLine delim (r.map cellStr))]

/-- A hex digit is never a space. -/
theorem byteHexDigit_ne_space (n : Nat) : (byteHexDigit n == ' ') = false := by
  have hlt : n % 16 < hexDigits.length := by
    have : n % 16 < 16 := Nat.mod_lt _ (by omega)
    simpa [hexDigits]
  have hmem : ∀ c ∈ hexDigits, (c == ' ') = false := by decide
  unfold byteHexDigit
  rw [List.getD_eq_getElem?_getD, List.getElem?_eq_getElem hlt]
  exact hmem _ (List.getElem_mem hlt)

/-- No character emitted for a single quoted character is a space: safe
characters are not spaces, and escapes are `%` plus hex digits. -/
theorem quoteChar_no_space (c : Char) :
    (quoteChar c).any (fun d => d == ' ') = false := by
  unfold quoteChar
  split
  · rename_i hsafe
    simp only [List.any_cons, List.any_nil, Bool.or_false]
    cases hc : (c == ' ') with
    | false => rfl
    | true =>
      exfalso
      have : c = ' ' := by simpa using hc
      rw [this] at hsafe
      exact absurd hsafe (by decide)
  · rw [List.any_eq_false]
    intro x hx
    simp only [List.mem_flatten, List.mem_map] at hx
    obtain ⟨tr, ⟨b, -, htr⟩, hxin⟩ := hx
    rw [← htr] at hxin
    simp only [List.mem_cons, List.not_mem_nil, or_false] at hxin
    rcases hxin with h | h | h
    · simp [h]
    · simp [h, byteHexDigit_ne_space]
    · simp [h, byteHexDigit_ne_space]

/-- Quoting distributes over concatenation. -/
theorem quoteList_append (l1 l2 : List Char) :
    quoteList (l1 ++ l2) = quoteList l1 ++ quoteList l2 := by
  induction l1 with
  | nil => rfl
  | cons c rest ih =>
    show quoteChar c ++ quoteList (rest ++ l2)
        = (quoteChar c ++ quoteList rest) ++ quoteList l2
    rw [ih, List.append_assoc]

/-- No space survives quoting. -/
theorem quoteList_no_space (l : List Char) :
    (quoteList l).any (fun d => d == ' ') = false := by
  induction l with
  | nil => rfl
  | cons c rest ih =>
    simp only [quoteList, List.any_append, ih, quoteChar_no_space,
      Bool.or_false]

/-- Every character of the fixed endpoint URL is safe, so requoting leaves
it unchanged. -/
theorem quoteList_URL : quoteList URL.data = URL.data := by decide

/-- C2: the URL requests puts on the wire for `URL + keyword` is the
endpoint followed by the percent-encoding of the keyword; a space is
encoded as `%20`, and no literal space survives in the request URL. -/
theorem request_url_encodes_spaces (keyword : String) :
    requote_uri (URL ++ keyword) = URL ++ String.mk (quoteList keyword.data)
    ∧ quoteChar ' ' = "%20".data
    ∧ hasSpace (requote_uri (URL ++ keyword)) = false := by
  refine ⟨?_, by decide, ?_⟩
  · show String.mk (quoteList (URL ++ keyword).data) = _
    rw [String.data_append, quoteList_append, quoteList_URL]
    rfl
  · show (quoteList (URL ++ keyword).data).any (fun d => d == ' ') = false
    exact quoteList_no_space _

/-- C6: the pipeline in `main` is gated sequentially — a written file can
only arise from a successful fetch, a positive count and a successful
extraction; a non-positive count ends the run as `noRecords`; a positive
count with a `None` table ends it as `noValidData`; and both of those
outcomes exit with status 0 and produce no file. -/
theorem main_pipeline_gated (r : HttpResult) (parse : String → List Node)
    (output : String) (delim : Char) (enc : String) :
    (∀ file, mainRun r parse output delim enc = .wrote file →
      ∃ body, fetch_cve_data r = .text body ∧
        (∃ n, get_results_number (parse body) = .ok n ∧ 0 < n) ∧
        ∃ logs df, extract_table_data (parse body) = .ok (logs, some df) ∧
          file = (save_to_csv df output delim enc).1)
    ∧ (∀ body n, fetch_cve_data r = .text body →
        get_results_number (parse body) = .ok n → n ≤ 0 →
        mainRun r parse output delim enc = .noRecords)
    ∧ (∀ body n logs, fetch_cve_data r = .text body →
        get_results_number (parse body) = .ok n → 0 < n →
        extract_table_data (parse body) = .ok (logs, none) →
        mainRun r parse output delim enc = .noValidData)
    ∧ exitCode .noRecords = 0 ∧ exitCode .noValidData = 0
    ∧ producesFile .noRecords = false
    ∧ producesFile .noValidData = false := by
  refine ⟨fun file hw => ?_, fun body n hf hn hle => ?_,
    fun body n logs hf hn hpos hx => ?_, rfl, rfl, rfl, rfl⟩
  · unfold mainRun at hw
    cases hf : fetch_cve_data r with
    | exit1 =>
      simp only [hf] at hw
      exact absurd hw (by simp)
    | text body =>
      simp only [hf] at hw
      refine ⟨body, rfl, ?_⟩
      cases hn : get_results_number (parse body) with
      | error e =>
        simp only [hn] at hw
        exact absurd hw (by simp)
      | ok n =>
        simp only [hn] at hw
        by_cases hpos : 0 < n
        · rw [if_pos hpos] at hw
          refine ⟨⟨n, rfl, hpos⟩, ?_⟩
          cases hx : extract_table_data (parse body) with
          | error e =>
            simp only [hx] at hw
            exact absurd hw (by simp)
          | ok p =>
            rcases p with ⟨logs, _ | df⟩ <;> simp only [hx] at hw
            · exact absurd hw (by simp)
            · refine ⟨logs, df, rfl, ?_⟩
              simpa using hw.symm
        · rw [if_neg hpos] at hw
          exact absurd hw (by simp)
  · unfold mainRun
    simp only [hf, hn]
    rw [if_neg (by omega)]
  · unfold mainRun
    simp only [hf, hn]
    rw [if_pos hpos]
    simp only [hx]

/-- Witness for C6: a successful fetch of a page that parses to an empty
document has zero results, ends as `noRecords`, exits 0 and writes no
file. -/
theorem main_pipeline_gated_witness :
    mainRun (.response 200 "page") (fun _ => []) "cve.csv" ',' "utf-8"
      = .noRecords
    ∧ exitCode .noRecords = 0 ∧ producesFile .noRecords = false :=
  ⟨(main_pipeline_gated (.response 200 "page") (fun _ => []) "cve.csv" ','
      "utf-8").2.1 "page" 0 rfl rfl (by omega),
   (main_pipeline_gated (.response 200 "page") (fun _ => []) "cve.csv" ','
      "utf-8").2.2.2.1,
   (main_pipeline_gated (.response 200 "page") (fun _ => []) "cve.csv" ','
      "utf-8").2.2.2.2.2.1⟩
